import Mathlib

/-!
Shallow embedding of `Seeed_Arduino_SSCMACore` (`src/SSCMA_Micro_Core.h`,
`src/SSCMA_Micro_Core.cpp`).

Conventions of the embedding:
* C++ `float` values (scores, coordinates, thresholds) are only ever copied
  and compared by `<` / `>` in this code base, never computed with, so they
  are modelled as `Int` (any linearly ordered type would do).
* Pointers are modelled as `Option Nat` (`none` = `nullptr`); the pointee is
  never dereferenced by the wrapper.
* The external `sscma-micro` engine (`ma::Model`, `ma::Engine`) is out of
  scope of the repository; a model is represented by the data the wrapper
  reads from it: its type tag, the return code of `run`, the result lists
  returned by `getResults`, and the perf record returned by `getPerf`.
* User callbacks (`std::function` values) cannot be executed inside the
  embedding; each registration slot is modelled by a `Bool` flag and every
  call the wrapper would make is recorded as an `Event` in an output trace,
  together with the `setConfig` calls on the model and the `run` call, in
  program order.
* `std::sort` / `std::forward_list::sort` with a strict comparator on the
  score are modelled by `List.insertionSort` with the corresponding
  non-strict relation (the C++ sort algorithm is unspecified up to
  permutation-and-ordering, which insertion sort realises).
-/

namespace SSCMA

/-- Engine pixel formats (`ma_pixel_format_t`, external). Only the four
constructors named in `SSCMA_Micro_Core.cpp` are relevant. -/
inductive MaPixelFormat
  | RGB888
  | RGB565
  | GRAYSCALE
  | JPEG
deriving DecidableEq

/-- Engine rotation tags (`ma_pixel_rotate_t`, external). -/
inductive MaRotate
  | ROTATE_0
  | ROTATE_90
  | ROTATE_180
  | ROTATE_270
deriving DecidableEq

/-- Engine image struct (`ma_img_t`, external): the fields `invoke` fills. -/
structure MaImg where
  width : Nat
  height : Nat
  format : MaPixelFormat
  rotate : MaRotate
  timestamp : Int
  size : Nat
  data : Option Nat
deriving DecidableEq

/-- Engine point result (`ma_point_t`, external). -/
structure MaPoint where
  x : Int
  y : Int
  score : Int
  target : Int
deriving DecidableEq

/-- Engine classification result (`ma_class_t`, external). -/
structure MaClass where
  score : Int
  target : Int
deriving DecidableEq

/-- Engine bounding-box result (`ma_bbox_t`, external). -/
structure MaBbox where
  x : Int
  y : Int
  w : Int
  h : Int
  score : Int
  target : Int
deriving DecidableEq

/-- Engine 3d point inside a keypoint result (`ma_pts3f_t`, external). -/
structure MaPoint3 where
  x : Int
  y : Int
  z : Int
deriving DecidableEq

/-- Engine keypoint result (`ma_keypoint3f_t`, external): a box plus points. -/
structure MaKeypoint3f where
  box : MaBbox
  pts : List MaPoint3
deriving DecidableEq

/-- Engine perf record (`ma_perf_t`, external). -/
structure MaPerf where
  preprocess : Nat
  inference : Nat
  postprocess : Nat
deriving DecidableEq

/-- Engine model type tags (`ma_model_type_t`, external). The tags named in
the dispatch of `SSCMAMicroCore::invoke`, plus `UNDEFINED` and a catch-all
for the remaining enum values. -/
inductive MaModelType
  | UNDEFINED
  | PFLD
  | IMCLS
  | FOMO
  | YOLOV5
  | YOLOV8
  | NVIDIA_DET
  | YOLO_WORLD
  | YOLOV8_POSE
  | other (n : Nat)
deriving DecidableEq

/-- The data `SSCMAMicroCore::invoke` reads from the external `ma::Model`:
`getType()`, the return code of `run(&img)`, the `getResults()` list of each
branch, and `getPerf()`. -/
structure MaModel where
  type : MaModelType
  runRet : Int
  pointResults : List MaPoint
  classResults : List MaClass
  boxResults : List MaBbox
  keypointResults : List MaKeypoint3f
  perf : MaPerf
deriving DecidableEq

/-- `SSCMAMicroCore::InvokeConfig` (header lines 68-72). -/
structure InvokeConfig where
  top_k : Int
  score_threshold : Int
  nms_threshold : Int
deriving DecidableEq

/-- `SSCMAMicroCore::Config` (header lines 77-81); the `invoke_config`
pointer is `Option` (`none` = `nullptr`). -/
structure Config where
  model_id : Int
  algorithm_id : Int
  invoke_config : Option InvokeConfig
deriving DecidableEq

/-- `SSCMAMicroCore::Box` (header lines 86-93), members in declaration
order `x, y, w, h, score, target`. -/
structure Box where
  x : Int
  y : Int
  w : Int
  h : Int
  score : Int
  target : Int
deriving DecidableEq

/-- `SSCMAMicroCore::Class` (header lines 98-101), members in declaration
order `target` then `score`. -/
structure Class where
  target : Int
  score : Int
deriving DecidableEq

/-- `SSCMAMicroCore::Point` (header lines 106-112). -/
structure Point where
  x : Int
  y : Int
  z : Int
  score : Int
  target : Int
deriving DecidableEq

/-- `SSCMAMicroCore::Keypoints` (header lines 117-120). -/
structure Keypoints where
  box : Box
  points : List Point
deriving DecidableEq

/-- `SSCMAMicroCore::Perf` (header lines 145-149). -/
structure Perf where
  preprocess : Nat
  inference : Nat
  postprocess : Nat
deriving DecidableEq

/-- `SSCMAMicroCore::PixelFormat` (header lines 159-165). -/
inductive PixelFormat
  | kUNKNOWN
  | kRGB888
  | kRGB565
  | kGRAY8
  | kJPEG
deriving DecidableEq

/-- `struct timeval` used for the frame timestamp. -/
structure Timeval where
  tv_sec : Int
  tv_usec : Int
deriving DecidableEq

/-- `SSCMAMicroCore::Frame` (header lines 170-187). -/
structure Frame where
  format : PixelFormat
  width : Nat
  height : Nat
  orientation : Nat
  timestamp : Timeval
  size : Nat
  data : Option Nat
deriving DecidableEq

/-- `SSCMAMicroCore::Expected` (header lines 192-195). -/
structure Expected where
  success : Bool
  message : String
deriving DecidableEq

/-- The registered callback slots: `std::function` values are modelled by a
flag telling whether the slot is non-empty. -/
structure Callbacks where
  boxesCb : Bool
  classesCb : Bool
  pointsCb : Bool
  keypointsCb : Bool
  perfCb : Bool
deriving DecidableEq

/-- The private state of a `SSCMAMicroCore` object: `_initialized` (here
`inited`), `_config`, the callback slots, and the stored result lists
`_boxes`, `_classes`, `_points`, `_keypoints`, `_perf`. -/
structure CoreState where
  inited : Bool
  config : Config
  cbs : Callbacks
  boxes : List Box
  classes : List Class
  points : List Point
  keypoints : List Keypoints
  perf : Perf
deriving DecidableEq

/-- The two model options set by the wrapper (`MA_MODEL_CFG_OPT_THRESHOLD`,
`MA_MODEL_CFG_OPT_NMS`). -/
inductive ModelOpt
  | THRESHOLD
  | NMS
deriving DecidableEq

/-- Observable actions of `begin` / `invoke` on the external model and the
user callbacks, recorded in program order. -/
inductive Event
  | create (id : Int)
  | setOpt (opt : ModelOpt) (value : Int)
  | runModel (img : MaImg)
  | cbPoints (l : List Point) (ctx : Nat)
  | cbClasses (l : List Class) (ctx : Nat)
  | cbBoxes (l : List Box) (ctx : Nat)
  | cbKeypoints (l : List Keypoints) (ctx : Nat)
  | cbPerf (p : Perf) (ctx : Nat)
deriving DecidableEq

/-- Result of one embedded call: the returned `Expected`, the post state of
the object, and the trace of observable actions. -/
structure CallResult where
  exp : Expected
  state : CoreState
  events : List Event
deriving DecidableEq

/-! ### Frame validation and conversion (`invoke`, cpp lines 274-330) -/

/-- The five early-return checks of `invoke` (cpp lines 274-290), in source
order; returns the message of the first failing check. -/
def validateMsg (st : CoreState) (frame : Frame) : Option String :=
  if st.inited = false then some "Not initialized"
  else if frame.format = PixelFormat.kUNKNOWN then some "Invalid frame format"
  else if frame.width = 0 ∨ frame.height = 0 then some "Invalid frame dimensions"
  else if frame.size = 0 then some "Invalid frame size"
  else if frame.data = none then some "Invalid frame data"
  else none

/-- The `switch (frame.format)` of cpp lines 295-310; the `default` arm
returns an error in the source, embedded as `none`. -/
def pixelFormatToMa : PixelFormat → Option MaPixelFormat
  | PixelFormat.kRGB888 => some MaPixelFormat.RGB888
  | PixelFormat.kRGB565 => some MaPixelFormat.RGB565
  | PixelFormat.kGRAY8 => some MaPixelFormat.GRAYSCALE
  | PixelFormat.kJPEG => some MaPixelFormat.JPEG
  | PixelFormat.kUNKNOWN => none

/-- The `switch (frame.orientation)` of cpp lines 311-327: the four exact
case labels, every other value falling to the `default` arm. -/
def orientationToRotate (n : Nat) : MaRotate :=
  if n = 0 then MaRotate.ROTATE_0
  else if n = 90 then MaRotate.ROTATE_90
  else if n = 180 then MaRotate.ROTATE_180
  else if n = 270 then MaRotate.ROTATE_270
  else MaRotate.ROTATE_0

/-- Construction of `ma_img_t img` from the frame (cpp lines 292-330); the
timestamp uses C truncating integer division (`Int.tdiv`). -/
def frameToImg (frame : Frame) : Option MaImg :=
  match pixelFormatToMa frame.format with
  | none => none
  | some fmt =>
    some { width := frame.width
           height := frame.height
           format := fmt
           rotate := orientationToRotate frame.orientation
           timestamp := frame.timestamp.tv_sec * 1000 + Int.tdiv frame.timestamp.tv_usec 1000
           size := frame.size
           data := frame.data }

/-! ### Per-branch top-k truncation (`invoke`, cpp lines 347-351, 378-387,
412-421, 442-446) -/

/-- PFLD branch truncation (cpp lines 347-351): when an invoke config with
`top_k > 0` is in effect, `std::sort` descending by score, then
`resize(min(size, top_k))`. -/
def truncPoints (cfg : Option InvokeConfig) (results : List MaPoint) : List MaPoint :=
  match cfg with
  | some c =>
    if 0 < c.top_k then
      (results.insertionSort (fun a b => b.score ≤ a.score)).take c.top_k.toNat
    else results
  | none => results

/-- IMCLS branch truncation (cpp lines 378-387): when an invoke config with
`top_k > 0` is in effect and `size - top_k > 0`, `forward_list::sort`
ascending by score, then `pop_front` that many times. -/
def truncClasses (cfg : Option InvokeConfig) (results : List MaClass) : List MaClass :=
  match cfg with
  | some c =>
    if 0 < c.top_k then
      if 0 < (results.length : Int) - c.top_k then
        (results.insertionSort (fun a b => a.score ≤ b.score)).drop
          ((results.length : Int) - c.top_k).toNat
      else results
    else results
  | none => results

/-- Detector branch truncation (cpp lines 412-421), same shape as the IMCLS
branch. -/
def truncBoxes (cfg : Option InvokeConfig) (results : List MaBbox) : List MaBbox :=
  match cfg with
  | some c =>
    if 0 < c.top_k then
      if 0 < (results.length : Int) - c.top_k then
        (results.insertionSort (fun a b => a.score ≤ b.score)).drop
          ((results.length : Int) - c.top_k).toNat
      else results
    else results
  | none => results

/-- YOLOV8_POSE branch truncation (cpp lines 442-446): `std::sort`
descending by `box.score`, then `resize(min(size, top_k))`. -/
def truncKeypoints (cfg : Option InvokeConfig) (results : List MaKeypoint3f) :
    List MaKeypoint3f :=
  match cfg with
  | some c =>
    if 0 < c.top_k then
      (results.insertionSort (fun a b => b.box.score ≤ a.box.score)).take c.top_k.toNat
    else results
  | none => results

/-! ### Per-branch result mapping (`invoke`, cpp lines 352-361, 388-391,
422-425, 447-468) -/

/-- Mapping of one engine point to `SSCMAMicroCore::Point` (cpp lines
354-360): designated initializers, `z = 0.f`. -/
def pointOfMa (r : MaPoint) : Point :=
  { x := r.x, y := r.y, z := 0, score := r.score, target := r.target }

/-- Mapping of one engine class to `SSCMAMicroCore::Class` (cpp line 390):
the source is the positional aggregate init
`classes.push_back({result.score, result.target})` against the member
order `target, score` of `Class`, so the first member `target` is
initialized from `result.score` and the second member `score` from
`result.target`. -/
def classOfMa (r : MaClass) : Class :=
  { target := r.score, score := r.target }

/-- Mapping of one engine bbox to `SSCMAMicroCore::Box` (cpp line 424):
positional aggregate init `{result.x, result.y, result.w, result.h,
result.score, result.target}` against member order `x, y, w, h, score,
target`. -/
def boxOfMa (r : MaBbox) : Box :=
  { x := r.x, y := r.y, w := r.w, h := r.h, score := r.score, target := r.target }

/-- Mapping of one engine keypoint result to `SSCMAMicroCore::Keypoints`
(cpp lines 449-467): the box fields are copied one by one; each point gets
`score = 0.f` and `target = i++` over the point list. -/
def keypointsOfMa (r : MaKeypoint3f) : Keypoints :=
  { box := { x := r.box.x, y := r.box.y, w := r.box.w, h := r.box.h,
             score := r.box.score, target := r.box.target }
    points := r.pts.enum.map
      (fun p => { x := p.2.x, y := p.2.y, z := p.2.z, score := 0, target := (p.1 : Int) }) }

/-! ### The dispatch and the common tail of `invoke` (cpp lines 332-492) -/

/-- The common tail of `invoke` (cpp lines 481-489): read `getPerf`, call
the perf callback when registered, store `_perf`. -/
def perfTail (st : CoreState) (model : MaModel) (ctx : Nat) : CoreState × List Event :=
  let p : Perf := { preprocess := model.perf.preprocess
                    inference := model.perf.inference
                    postprocess := model.perf.postprocess }
  ({ st with perf := p }, if st.cbs.perfCb then [Event.cbPerf p ctx] else [])

/-- PFLD branch (cpp lines 339-368). -/
def branchPoints (st : CoreState) (model : MaModel) (img : MaImg) (ctx : Nat)
    (pre : List Event) : CallResult :=
  if model.runRet ≠ 0 then
    { exp := { success := false, message := "Failed to run model: " ++ toString model.runRet }
      state := st, events := pre ++ [Event.runModel img] }
  else
    let results := truncPoints st.config.invoke_config model.pointResults
    let points := results.map pointOfMa
    let cbEvts := if st.cbs.pointsCb then [Event.cbPoints points ctx] else []
    let tail := perfTail { st with points := points } model ctx
    { exp := { success := true, message := "" }
      state := tail.1
      events := pre ++ [Event.runModel img] ++ cbEvts ++ tail.2 }

/-- IMCLS branch (cpp lines 370-398). -/
def branchClasses (st : CoreState) (model : MaModel) (img : MaImg) (ctx : Nat)
    (pre : List Event) : CallResult :=
  if model.runRet ≠ 0 then
    { exp := { success := false, message := "Failed to run model: " ++ toString model.runRet }
      state := st, events := pre ++ [Event.runModel img] }
  else
    let results := truncClasses st.config.invoke_config model.classResults
    let classes := results.map classOfMa
    let cbEvts := if st.cbs.classesCb then [Event.cbClasses classes ctx] else []
    let tail := perfTail { st with classes := classes } model ctx
    { exp := { success := true, message := "" }
      state := tail.1
      events := pre ++ [Event.runModel img] ++ cbEvts ++ tail.2 }

/-- Detector branch, shared by FOMO / YOLOV5 / YOLOV8 / NVIDIA_DET /
YOLO_WORLD (cpp lines 400-432). -/
def branchBoxes (st : CoreState) (model : MaModel) (img : MaImg) (ctx : Nat)
    (pre : List Event) : CallResult :=
  if model.runRet ≠ 0 then
    { exp := { success := false, message := "Failed to run model: " ++ toString model.runRet }
      state := st, events := pre ++ [Event.runModel img] }
  else
    let results := truncBoxes st.config.invoke_config model.boxResults
    let boxes := results.map boxOfMa
    let cbEvts := if st.cbs.boxesCb then [Event.cbBoxes boxes ctx] else []
    let tail := perfTail { st with boxes := boxes } model ctx
    { exp := { success := true, message := "" }
      state := tail.1
      events := pre ++ [Event.runModel img] ++ cbEvts ++ tail.2 }

/-- YOLOV8_POSE branch (cpp lines 434-475). -/
def branchKeypoints (st : CoreState) (model : MaModel) (img : MaImg) (ctx : Nat)
    (pre : List Event) : CallResult :=
  if model.runRet ≠ 0 then
    { exp := { success := false, message := "Failed to run model: " ++ toString model.runRet }
      state := st, events := pre ++ [Event.runModel img] }
  else
    let results := truncKeypoints st.config.invoke_config model.keypointResults
    let keypoints := results.map keypointsOfMa
    let cbEvts := if st.cbs.keypointsCb then [Event.cbKeypoints keypoints ctx] else []
    let tail := perfTail { st with keypoints := keypoints } model ctx
    { exp := { success := true, message := "" }
      state := tail.1
      events := pre ++ [Event.runModel img] ++ cbEvts ++ tail.2 }

/-- Body of `invoke` after validation and image conversion: the optional
config overwrite (cpp lines 332-336), the `switch (ma_model->getType())`
(cpp lines 338-479, with a `default` arm that extracts nothing), and for
the `default` arm the common perf tail. -/
def invokeBody (st : CoreState) (model : MaModel) (img : MaImg)
    (cfg : Option InvokeConfig) (ctx : Nat) : CallResult :=
  let st1 : CoreState :=
    match cfg with
    | some c => { st with config := { st.config with invoke_config := some c } }
    | none => st
  let pre : List Event :=
    match cfg with
    | some c => [Event.setOpt ModelOpt.THRESHOLD c.score_threshold,
                 Event.setOpt ModelOpt.NMS c.nms_threshold]
    | none => []
  match model.type with
  | MaModelType.PFLD => branchPoints st1 model img ctx pre
  | MaModelType.IMCLS => branchClasses st1 model img ctx pre
  | MaModelType.FOMO => branchBoxes st1 model img ctx pre
  | MaModelType.YOLOV5 => branchBoxes st1 model img ctx pre
  | MaModelType.YOLOV8 => branchBoxes st1 model img ctx pre
  | MaModelType.NVIDIA_DET => branchBoxes st1 model img ctx pre
  | MaModelType.YOLO_WORLD => branchBoxes st1 model img ctx pre
  | MaModelType.YOLOV8_POSE => branchKeypoints st1 model img ctx pre
  | _ =>
    let tail := perfTail st1 model ctx
    { exp := { success := true, message := "" }, state := tail.1, events := pre ++ tail.2 }

/-- `SSCMAMicroCore::invoke(const Frame&, const InvokeConfig*, void*)`
(cpp lines 274-492). -/
def invoke (st : CoreState) (model : MaModel) (frame : Frame)
    (cfg : Option InvokeConfig) (ctx : Nat) : CallResult :=
  match validateMsg st frame with
  | some msg => { exp := { success := false, message := msg }, state := st, events := [] }
  | none =>
    match frameToImg frame with
    | none => { exp := { success := false, message := "Invalid frame format" }
                state := st, events := [] }
    | some img => invokeBody st model img cfg ctx

/-! ### `begin` (cpp lines 187-271) -/

/-- One entry of the flash model scan (`ma_model_t`): the fields the rest
of `begin` reads; `type` is compared with `config.model_id` as an integer
(cpp line 242). -/
structure MaModelRec where
  id : Nat
  type : Int
deriving DecidableEq

/-- The outcomes of the external steps of `begin` that the wrapper only
observes: the engine `init` return code, the `spi_flash_mmap` return code,
the number of `TFL3` headers the flash scan finds, the engine `load`
return code, and whether `ModelFactory::create` returns a model (`false` =
`nullptr`). The embedding follows the `MA_PORTING_ESPRESSIF_ESP32S3` path
with `MA_PORTING_ESPRESSIF_PARTITIONS` unset (fixed partition address). -/
structure BeginExt where
  engineInitRet : Int
  mmapRet : Int
  modelCount : Nat
  loadRet : Int
  created : Bool
deriving DecidableEq

/-- The model list the flash scan builds (cpp lines 228-240): one entry per
`TFL3` header found, assigned `id = ++id` and — unconditionally —
`type = MA_MODEL_TYPE_UNDEFINED` (= 0, the first enumerator of
`ma_model_type_t`). -/
def scanModels (n : Nat) : List MaModelRec :=
  (List.range n).map (fun i => { id := i + 1, type := 0 })

/-- `SSCMAMicroCore::begin(const Config&)` (cpp lines 187-271): guard on
`_initialized`, engine init, flash map and scan, model lookup
(`config.model_id >= 0` selects by type equality, otherwise the first
entry), engine load, then `ModelFactory::create(ma_engine,
_config.model_id >= 0 ? _config.model_id : 0)` — note: the STORED
`_config.model_id`, not the argument — optional `setConfig` calls from
`config.invoke_config`, and only then `_config = config;
_initialized = true`. -/
def beginCore (st : CoreState) (ext : BeginExt) (config : Config) : CallResult :=
  if st.inited then
    { exp := { success := false, message := "Already initialized" }, state := st, events := [] }
  else if ext.engineInitRet ≠ 0 then
    { exp := { success := false, message := "Engine init failed" }, state := st, events := [] }
  else if ext.mmapRet ≠ 0 then
    { exp := { success := false, message := "Failed to map models" }, state := st, events := [] }
  else
    let found : Option MaModelRec :=
      if 0 ≤ config.model_id then
        (scanModels ext.modelCount).find? (fun m => m.type == config.model_id)
      else (scanModels ext.modelCount).head?
    match found with
    | none =>
      { exp := { success := false, message := "Model not found" }, state := st, events := [] }
    | some _ =>
      if ext.loadRet ≠ 0 then
        { exp := { success := false, message := "Failed to load model" }
          state := st, events := [] }
      else
        let createId : Int := if 0 ≤ st.config.model_id then st.config.model_id else 0
        if ext.created = false then
          { exp := { success := false, message := "Failed to create algorithm" }
            state := st, events := [Event.create createId] }
        else
          let optEvts : List Event :=
            match config.invoke_config with
            | some c => [Event.setOpt ModelOpt.THRESHOLD c.score_threshold,
                         Event.setOpt ModelOpt.NMS c.nms_threshold]
            | none => []
          { exp := { success := true, message := "" }
            state := { st with inited := true, config := config }
            events := [Event.create createId] ++ optEvts }

/-! ### `Frame::fromCameraFrame` (cpp lines 98-127) -/

/-- ESP32 camera pixel formats (`pixformat_t`, vendor HAL): the four
handled by `fromCameraFrame` plus representatives of the other values. -/
inductive PixFormat
  | RGB888
  | RGB565
  | GRAYSCALE
  | JPEG
  | YUV422
  | YUV420
  | RAW
  | RGB444
deriving DecidableEq

/-- ESP32 camera frame buffer (`camera_fb_t`, vendor HAL): the fields read
by `fromCameraFrame`. -/
structure CameraFb where
  buf : Option Nat
  len : Nat
  width : Nat
  height : Nat
  format : PixFormat
  timestamp : Timeval
deriving DecidableEq

/-- `Frame f;` default-initializes a POD, leaving all members
indeterminate; this value stands for those indeterminate contents (no
claim depends on it). -/
def Frame.uninit : Frame :=
  { format := PixelFormat.kUNKNOWN, width := 0, height := 0, orientation := 0,
    timestamp := { tv_sec := 0, tv_usec := 0 }, size := 0, data := none }

/-- `SSCMAMicroCore::Frame::fromCameraFrame(const camera_fb_t*)` (cpp lines
98-127); the argument is `Option` (`none` = `nullptr`). -/
def Frame.fromCameraFrame (fb : Option CameraFb) : Frame :=
  match fb with
  | none => Frame.uninit
  | some cf =>
    if cf.buf = none then Frame.uninit
    else
      { format :=
          match cf.format with
          | PixFormat.RGB888 => PixelFormat.kRGB888
          | PixFormat.RGB565 => PixelFormat.kRGB565
          | PixFormat.GRAYSCALE => PixelFormat.kGRAY8
          | PixFormat.JPEG => PixelFormat.kJPEG
          | _ => PixelFormat.kUNKNOWN
        width := cf.width
        height := cf.height
        orientation := 0
        timestamp := cf.timestamp
        size := cf.len
        data := cf.buf }

/-! ### Spec-side characterizations (written from the claims, to be related
to the embedded code) -/

/-- The four typed result kinds of the wrapper. -/
inductive ResultKind
  | pointsK
  | classesK
  | boxesK
  | keypointsK
deriving DecidableEq

/-- Spec-side dispatch table: which typed result-extraction branch the
`switch` on the model type takes, `none` for the `default` arm. -/
def branchKind : MaModelType → Option ResultKind
  | MaModelType.PFLD => some ResultKind.pointsK
  | MaModelType.IMCLS => some ResultKind.classesK
  | MaModelType.FOMO => some ResultKind.boxesK
  | MaModelType.YOLOV5 => some ResultKind.boxesK
  | MaModelType.YOLOV8 => some ResultKind.boxesK
  | MaModelType.NVIDIA_DET => some ResultKind.boxesK
  | MaModelType.YOLO_WORLD => some ResultKind.boxesK
  | MaModelType.YOLOV8_POSE => some ResultKind.keypointsK
  | _ => none

/-- Whether an event is a result-callback call. -/
def isResultCbEvt : Event → Bool
  | Event.cbPoints _ _ => true
  | Event.cbClasses _ _ => true
  | Event.cbBoxes _ _ => true
  | Event.cbKeypoints _ _ => true
  | _ => false

/-- The result kind a result-callback event carries. -/
def resultKindOf : Event → Option ResultKind
  | Event.cbPoints _ _ => some ResultKind.pointsK
  | Event.cbClasses _ _ => some ResultKind.classesK
  | Event.cbBoxes _ _ => some ResultKind.boxesK
  | Event.cbKeypoints _ _ => some ResultKind.keypointsK
  | _ => none

/-- Whether an event is a perf-callback call. -/
def isPerfCbEvt : Event → Bool
  | Event.cbPerf _ _ => true
  | _ => false

/-- Whether an event is a `ModelFactory::create` call. -/
def isCreateEvt : Event → Bool
  | Event.create _ => true
  | _ => false

/-- The registration flag of the callback slot for a result kind. -/
def cbFlagFor (cbs : Callbacks) : ResultKind → Bool
  | ResultKind.pointsK => cbs.pointsCb
  | ResultKind.classesK => cbs.classesCb
  | ResultKind.boxesK => cbs.boxesCb
  | ResultKind.keypointsK => cbs.keypointsCb

/-- The invoke configuration in effect during a call to `invoke`: the
explicit argument when non-null, otherwise the stored
`_config.invoke_config`. -/
def effConfig (st : CoreState) (cfg : Option InvokeConfig) : Option InvokeConfig :=
  match cfg with
  | some c => some c
  | none => st.config.invoke_config

/-- Spec-side: the result-callback calls a successful `invoke` is expected
to make — one call with the mapped, possibly truncated engine results when
the branch's slot is registered, none otherwise. -/
def specResultEvts (st : CoreState) (model : MaModel) (cfg : Option InvokeConfig)
    (ctx : Nat) : List Event :=
  let e := effConfig st cfg
  match branchKind model.type with
  | some ResultKind.pointsK =>
    if st.cbs.pointsCb then
      [Event.cbPoints ((truncPoints e model.pointResults).map pointOfMa) ctx] else []
  | some ResultKind.classesK =>
    if st.cbs.classesCb then
      [Event.cbClasses ((truncClasses e model.classResults).map classOfMa) ctx] else []
  | some ResultKind.boxesK =>
    if st.cbs.boxesCb then
      [Event.cbBoxes ((truncBoxes e model.boxResults).map boxOfMa) ctx] else []
  | some ResultKind.keypointsK =>
    if st.cbs.keypointsCb then
      [Event.cbKeypoints ((truncKeypoints e model.keypointResults).map keypointsOfMa) ctx]
    else []
  | none => []

/-- Spec-side: the message of the first failing check, in the order the
claim states the five checks. -/
def specFirstFail (st : CoreState) (frame : Frame) : String :=
  if st.inited = false then "Not initialized"
  else if frame.format = PixelFormat.kUNKNOWN then "Invalid frame format"
  else if frame.width = 0 ∨ frame.height = 0 then "Invalid frame dimensions"
  else if frame.size = 0 then "Invalid frame size"
  else "Invalid frame data"

/-! ### Generic lemmas about the top-k truncation patterns -/

/-- Bound-and-dominance property of one top-k truncation: the output has at
most `k` elements and the input splits (up to permutation) into the output
plus removed elements none of which out-scores a retained one. -/
def topKBound {α : Type} (key : α → Int) (k : Int) (input output : List α) : Prop :=
  output.length ≤ k.toNat ∧
  ∃ rem, input.Perm (output ++ rem) ∧ ∀ x ∈ output, ∀ y ∈ rem, key y ≤ key x

theorem topKBound_sort_take {α : Type} (key : α → Int) (k : Int) (l : List α) :
    topKBound key k l ((l.insertionSort (fun a b => key b ≤ key a)).take k.toNat) := by
  haveI : IsTotal α (fun a b => key b ≤ key a) := ⟨fun a b => le_total (key b) (key a)⟩
  haveI : IsTrans α (fun a b => key b ≤ key a) := ⟨fun _ _ _ hab hbc => le_trans hbc hab⟩
  set s := l.insertionSort (fun a b => key b ≤ key a) with hsdef
  constructor
  · rw [List.length_take]
    exact min_le_left _ _
  · refine ⟨s.drop k.toNat, ?_, ?_⟩
    · rw [List.take_append_drop]
      exact (List.perm_insertionSort _ l).symm
    · have hs : List.Pairwise (fun a b => key b ≤ key a) s :=
        List.sorted_insertionSort _ l
      have hp : List.Pairwise (fun a b => key b ≤ key a) (s.take k.toNat ++ s.drop k.toNat) := by
        rw [List.take_append_drop]
        exact hs
      intro x hx y hy
      exact (List.pairwise_append.mp hp).2.2 x hx y hy

theorem topKBound_sort_drop {α : Type} (key : α → Int) (k : Int) (l : List α)
    (hk : 0 < k) (hlen : 0 < (l.length : Int) - k) :
    topKBound key k l
      ((l.insertionSort (fun a b => key a ≤ key b)).drop ((l.length : Int) - k).toNat) := by
  haveI : IsTotal α (fun a b => key a ≤ key b) := ⟨fun a b => le_total (key a) (key b)⟩
  haveI : IsTrans α (fun a b => key a ≤ key b) := ⟨fun _ _ _ hab hbc => le_trans hab hbc⟩
  set s := l.insertionSort (fun a b => key a ≤ key b) with hsdef
  have hlens : s.length = l.length := List.length_insertionSort _ l
  constructor
  · rw [List.length_drop, hlens]
    omega
  · refine ⟨s.take ((l.length : Int) - k).toNat, ?_, ?_⟩
    · have hsplit : l.Perm (s.take ((l.length : Int) - k).toNat ++
          s.drop ((l.length : Int) - k).toNat) := by
        rw [List.take_append_drop]
        exact (List.perm_insertionSort _ l).symm
      exact hsplit.trans List.perm_append_comm
    · have hs : List.Pairwise (fun a b => key a ≤ key b) s :=
        List.sorted_insertionSort _ l
      have hp : List.Pairwise (fun a b => key a ≤ key b)
          (s.take ((l.length : Int) - k).toNat ++ s.drop ((l.length : Int) - k).toNat) := by
        rw [List.take_append_drop]
        exact hs
      intro x hx y hy
      exact (List.pairwise_append.mp hp).2.2 y hy x hx

/-! ### The truncation functions satisfy the top-k property -/

theorem truncPoints_topK (c : InvokeConfig) (hk : 0 < c.top_k) (l : List MaPoint) :
    topKBound MaPoint.score c.top_k l (truncPoints (some c) l) := by
  simpa [truncPoints, hk] using topKBound_sort_take MaPoint.score c.top_k l

theorem truncKeypoints_topK (c : InvokeConfig) (hk : 0 < c.top_k) (l : List MaKeypoint3f) :
    topKBound (fun r => r.box.score) c.top_k l (truncKeypoints (some c) l) := by
  simpa [truncKeypoints, hk] using
    topKBound_sort_take (fun r : MaKeypoint3f => r.box.score) c.top_k l

theorem truncClasses_topK (c : InvokeConfig) (hk : 0 < c.top_k) (l : List MaClass) :
    topKBound MaClass.score c.top_k l (truncClasses (some c) l) := by
  by_cases hlen : 0 < (l.length : Int) - c.top_k
  · simpa [truncClasses, hk, hlen] using topKBound_sort_drop MaClass.score c.top_k l hk hlen
  · have hout : truncClasses (some c) l = l := by simp [truncClasses, hk, hlen]
    rw [hout]
    refine ⟨by omega, [], by simp, by simp⟩

theorem truncBoxes_topK (c : InvokeConfig) (hk : 0 < c.top_k) (l : List MaBbox) :
    topKBound MaBbox.score c.top_k l (truncBoxes (some c) l) := by
  by_cases hlen : 0 < (l.length : Int) - c.top_k
  · simpa [truncBoxes, hk, hlen] using topKBound_sort_drop MaBbox.score c.top_k l hk hlen
  · have hout : truncBoxes (some c) l = l := by simp [truncBoxes, hk, hlen]
    rw [hout]
    refine ⟨by omega, [], by simp, by simp⟩

/-- With no config in effect or a non-positive `top_k`, all four truncation
steps are the identity. -/
theorem trunc_noop (e : Option InvokeConfig)
    (h : e = none ∨ ∃ c, e = some c ∧ c.top_k ≤ 0) :
    (∀ l : List MaPoint, truncPoints e l = l) ∧
    (∀ l : List MaClass, truncClasses e l = l) ∧
    (∀ l : List MaBbox, truncBoxes e l = l) ∧
    (∀ l : List MaKeypoint3f, truncKeypoints e l = l) := by
  rcases h with h | ⟨c, hc, hk⟩
  · subst h
    exact ⟨fun _ => rfl, fun _ => rfl, fun _ => rfl, fun _ => rfl⟩
  · subst hc
    refine ⟨fun l => ?_, fun l => ?_, fun l => ?_, fun l => ?_⟩ <;>
      simp [truncPoints, truncClasses, truncBoxes, truncKeypoints, not_lt.mpr hk]

/-! ### Validation and unfolding lemmas for `invoke` -/

theorem validateMsg_eq_none_iff (st : CoreState) (frame : Frame) :
    validateMsg st frame = none ↔
      st.inited = true ∧ frame.format ≠ PixelFormat.kUNKNOWN ∧ frame.width ≠ 0 ∧
      frame.height ≠ 0 ∧ frame.size ≠ 0 ∧ frame.data ≠ none := by
  unfold validateMsg
  split_ifs with h1 h2 h3 h4 h5 <;> simp_all
  tauto

theorem invoke_of_validate_some (st : CoreState) (model : MaModel) (frame : Frame)
    (cfg : Option InvokeConfig) (ctx : Nat) (msg : String)
    (h : validateMsg st frame = some msg) :
    invoke st model frame cfg ctx =
      { exp := { success := false, message := msg }, state := st, events := [] } := by
  unfold invoke
  rw [h]

theorem frameToImg_isSome (frame : Frame) (h : frame.format ≠ PixelFormat.kUNKNOWN) :
    ∃ img, frameToImg frame = some img := by
  cases hf : frame.format <;> simp_all [frameToImg, pixelFormatToMa]

theorem invoke_eq_invokeBody (st : CoreState) (model : MaModel) (frame : Frame)
    (cfg : Option InvokeConfig) (ctx : Nat) (img : MaImg)
    (h : validateMsg st frame = none) (himg : frameToImg frame = some img) :
    invoke st model frame cfg ctx = invokeBody st model img cfg ctx := by
  unfold invoke
  rw [h, himg]

/-! ### Concrete fixtures used by witnesses and counterexamples -/

/-- A valid 240x240 RGB565 frame. -/
def frameW : Frame :=
  { format := PixelFormat.kRGB565, width := 240, height := 240, orientation := 90,
    timestamp := { tv_sec := 5, tv_usec := 1500 }, size := 115200, data := some 1 }

/-- All five callback slots registered. -/
def cbsAll : Callbacks :=
  { boxesCb := true, classesCb := true, pointsCb := true, keypointsCb := true, perfCb := true }

/-- An initialized core with default config and no stored results. -/
def stW : CoreState :=
  { inited := true, config := { model_id := 0, algorithm_id := 0, invoke_config := none },
    cbs := cbsAll, boxes := [], classes := [], points := [], keypoints := [],
    perf := { preprocess := 0, inference := 0, postprocess := 0 } }

/-- The same core, not initialized. -/
def stNot : CoreState := { stW with inited := false }

/-- An invoke config with `top_k = 1`. -/
def cfgK1 : InvokeConfig := { top_k := 1, score_threshold := 60, nms_threshold := 45 }

/-- A classifier model returning two class results. -/
def modelCls : MaModel :=
  { type := MaModelType.IMCLS, runRet := 0, pointResults := [],
    classResults := [{ score := 2, target := 3 }, { score := 9, target := 4 }],
    boxResults := [], keypointResults := [],
    perf := { preprocess := 1, inference := 2, postprocess := 3 } }

/-- The same model data with an `UNDEFINED` type tag. -/
def modelU : MaModel := { modelCls with type := MaModelType.UNDEFINED }

/-- A camera frame with a non-null buffer. -/
def camFb : CameraFb :=
  { buf := some 2, len := 100, width := 240, height := 240, format := PixFormat.JPEG,
    timestamp := { tv_sec := 1, tv_usec := 0 } }

/-- External outcomes letting `begin` reach the end: engine init, mmap and
load succeed, the scan found one `TFL3` header, `create` succeeds. -/
def extW : BeginExt :=
  { engineInitRet := 0, mmapRet := 0, modelCount := 1, loadRet := 0, created := true }

/-- A begin config selecting model id 0 (the only id the line-242 lookup
can find, since the scan types every entry `MA_MODEL_TYPE_UNDEFINED`),
without an invoke config. -/
def cfg0 : Config := { model_id := 0, algorithm_id := 0, invoke_config := none }

/-- An uninitialized core whose stored (pre-`begin`, indeterminate in the
C++ source) `_config.model_id` is 7. -/
def st7 : CoreState :=
  { stNot with config := { model_id := 7, algorithm_id := 0, invoke_config := none } }

/-! ### Claim C9 -/

/-- C9: if the core is not initialized, or the frame format is `kUNKNOWN`,
or width or height is 0, or size is 0, or the data pointer is null, then
`invoke` returns `success = false` with the message of the first failing
check (in that order), the state — including all stored results — is
unchanged, and no model run or callback happens (the event trace is
empty). -/
theorem invoke_validation_order (st : CoreState) (model : MaModel) (frame : Frame)
    (cfg : Option InvokeConfig) (ctx : Nat)
    (h : st.inited = false ∨ frame.format = PixelFormat.kUNKNOWN ∨ frame.width = 0 ∨
         frame.height = 0 ∨ frame.size = 0 ∨ frame.data = none) :
    invoke st model frame cfg ctx =
      { exp := { success := false, message := specFirstFail st frame },
        state := st, events := [] } := by
  have hv : validateMsg st frame = some (specFirstFail st frame) := by
    unfold validateMsg specFirstFail
    rcases h with h | h | h | h | h | h <;> split_ifs <;> simp_all
  exact invoke_of_validate_some st model frame cfg ctx _ hv

/-- Witness for C9 at a concrete uninitialized core. -/
theorem invoke_validation_order_witness :
    (stNot.inited = false ∨ frameW.format = PixelFormat.kUNKNOWN ∨ frameW.width = 0 ∨
     frameW.height = 0 ∨ frameW.size = 0 ∨ frameW.data = none) ∧
    invoke stNot modelCls frameW none 0 =
      { exp := { success := false, message := specFirstFail stNot frameW },
        state := stNot, events := [] } :=
  ⟨Or.inl (by decide),
   invoke_validation_order stNot modelCls frameW none 0 (Or.inl (by decide))⟩

/-! ### Claim C3 -/

/-- C3, stated as a predicate: the engine image built from `frame` copies
width, height, size and data, maps the pixel format one-to-one, maps the
orientation to the rotation tags with default 0, has the
`tv_sec * 1000 + tv_usec / 1000` timestamp, and is the image every model
run of an `invoke` on this frame receives. -/
def FrameConvClaim (frame : Frame) : Prop :=
  ∃ img, frameToImg frame = some img ∧
    img.width = frame.width ∧ img.height = frame.height ∧
    img.size = frame.size ∧ img.data = frame.data ∧
    (frame.format = PixelFormat.kRGB888 → img.format = MaPixelFormat.RGB888) ∧
    (frame.format = PixelFormat.kRGB565 → img.format = MaPixelFormat.RGB565) ∧
    (frame.format = PixelFormat.kGRAY8 → img.format = MaPixelFormat.GRAYSCALE) ∧
    (frame.format = PixelFormat.kJPEG → img.format = MaPixelFormat.JPEG) ∧
    (frame.orientation = 0 → img.rotate = MaRotate.ROTATE_0) ∧
    (frame.orientation = 90 → img.rotate = MaRotate.ROTATE_90) ∧
    (frame.orientation = 180 → img.rotate = MaRotate.ROTATE_180) ∧
    (frame.orientation = 270 → img.rotate = MaRotate.ROTATE_270) ∧
    (frame.orientation ≠ 0 → frame.orientation ≠ 90 → frame.orientation ≠ 180 →
      frame.orientation ≠ 270 → img.rotate = MaRotate.ROTATE_0) ∧
    img.timestamp = frame.timestamp.tv_sec * 1000 + Int.tdiv frame.timestamp.tv_usec 1000 ∧
    (∀ st model cfg ctx img2,
      Event.runModel img2 ∈ (invoke st model frame cfg ctx).events → img2 = img)

/-- Every model run inside `invokeBody` receives exactly the image built
from the frame. -/
theorem runModel_img_of_invokeBody (st : CoreState) (model : MaModel) (img img2 : MaImg)
    (cfg : Option InvokeConfig) (ctx : Nat)
    (h : Event.runModel img2 ∈ (invokeBody st model img cfg ctx).events) : img2 = img := by
  rcases model with ⟨mtype, mrun, mpts, mcls, mbox, mkp, mperf⟩
  cases mtype <;> cases cfg <;>
    simp only [invokeBody, branchPoints, branchClasses, branchBoxes, branchKeypoints,
      perfTail] at h <;>
    split_ifs at h <;> simp_all

/-- C3: the conversion claim holds for every frame whose format is not
`kUNKNOWN`. -/
theorem invoke_frame_conversion (frame : Frame) (h : frame.format ≠ PixelFormat.kUNKNOWN) :
    FrameConvClaim frame := by
  obtain ⟨img, himg⟩ := frameToImg_isSome frame h
  refine ⟨img, himg, ?_⟩
  have himg' : img =
      { width := frame.width, height := frame.height,
        format := (pixelFormatToMa frame.format).getD MaPixelFormat.RGB888,
        rotate := orientationToRotate frame.orientation,
        timestamp := frame.timestamp.tv_sec * 1000 + Int.tdiv frame.timestamp.tv_usec 1000,
        size := frame.size, data := frame.data } := by
    cases hf : frame.format <;> simp_all [frameToImg, pixelFormatToMa]
  subst himg'
  refine ⟨rfl, rfl, rfl, rfl, ?_, ?_, ?_, ?_, ?_, ?_, ?_, ?_, ?_, rfl, ?_⟩
  · intro hf; simp [hf, pixelFormatToMa]
  · intro hf; simp [hf, pixelFormatToMa]
  · intro hf; simp [hf, pixelFormatToMa]
  · intro hf; simp [hf, pixelFormatToMa]
  · intro ho; simp [orientationToRotate, ho]
  · intro ho; simp [orientationToRotate, ho]
  · intro ho; simp [orientationToRotate, ho]
  · intro ho; simp [orientationToRotate, ho]
  · intro h0 h90 h180 h270; simp [orientationToRotate, h0, h90, h180, h270]
  · intro st model cfg ctx img2 hmem
    rcases hval : validateMsg st frame with _ | msg
    · rw [invoke_eq_invokeBody st model frame cfg ctx _ hval himg] at hmem
      exact runModel_img_of_invokeBody st model _ img2 cfg ctx hmem
    · rw [invoke_of_validate_some st model frame cfg ctx msg hval] at hmem
      simp at hmem

/-- Witness for C3 at a concrete RGB565 frame with orientation 90. -/
theorem invoke_frame_conversion_witness :
    frameW.format ≠ PixelFormat.kUNKNOWN ∧ FrameConvClaim frameW :=
  ⟨by decide, invoke_frame_conversion frameW (by decide)⟩

/-! ### Claim C7 -/

/-- C7, stated as a predicate on a camera frame: the produced `Frame` maps
the camera format to the wrapper formats (default `kUNKNOWN`), copies
width, height, size, data and timestamp, and has orientation 0. -/
def FromCameraClaim (cf : CameraFb) : Prop :=
  (cf.format = PixFormat.RGB888 → (Frame.fromCameraFrame (some cf)).format = PixelFormat.kRGB888) ∧
  (cf.format = PixFormat.RGB565 → (Frame.fromCameraFrame (some cf)).format = PixelFormat.kRGB565) ∧
  (cf.format = PixFormat.GRAYSCALE → (Frame.fromCameraFrame (some cf)).format = PixelFormat.kGRAY8) ∧
  (cf.format = PixFormat.JPEG → (Frame.fromCameraFrame (some cf)).format = PixelFormat.kJPEG) ∧
  (cf.format ≠ PixFormat.RGB888 → cf.format ≠ PixFormat.RGB565 →
    cf.format ≠ PixFormat.GRAYSCALE → cf.format ≠ PixFormat.JPEG →
    (Frame.fromCameraFrame (some cf)).format = PixelFormat.kUNKNOWN) ∧
  (Frame.fromCameraFrame (some cf)).width = cf.width ∧
  (Frame.fromCameraFrame (some cf)).height = cf.height ∧
  (Frame.fromCameraFrame (some cf)).size = cf.len ∧
  (Frame.fromCameraFrame (some cf)).data = cf.buf ∧
  (Frame.fromCameraFrame (some cf)).timestamp = cf.timestamp ∧
  (Frame.fromCameraFrame (some cf)).orientation = 0

/-- C7: the claim holds for every camera frame with a non-null buffer. -/
theorem fromCameraFrame_spec (cf : CameraFb) (h : cf.buf ≠ none) : FromCameraClaim cf := by
  unfold FromCameraClaim
  refine ⟨?_, ?_, ?_, ?_, ?_, ?_, ?_, ?_, ?_, ?_, ?_⟩ <;>
    cases hf : cf.format <;> simp_all [Frame.fromCameraFrame]

/-- Witness for C7 at a concrete JPEG camera frame. -/
theorem fromCameraFrame_spec_witness : camFb.buf ≠ none ∧ FromCameraClaim camFb :=
  ⟨by decide, fromCameraFrame_spec camFb (by decide)⟩

/-! ### Characterization of `beginCore` -/

/-- A successful `begin` stores the argument config, marks the core
initialized, and its trace is the `create` call with the PREVIOUSLY stored
`_config.model_id` (clamped to 0 when negative) followed by the optional
two `setConfig` calls taken from the argument's `invoke_config`. -/
theorem beginCore_success_char (st : CoreState) (ext : BeginExt) (config : Config)
    (hs : (beginCore st ext config).exp.success = true) :
    (beginCore st ext config).state = { st with inited := true, config := config } ∧
    (beginCore st ext config).events =
      Event.create (if 0 ≤ st.config.model_id then st.config.model_id else 0) ::
        (match config.invoke_config with
         | some c => [Event.setOpt ModelOpt.THRESHOLD c.score_threshold,
                      Event.setOpt ModelOpt.NMS c.nms_threshold]
         | none => []) := by
  by_cases h1 : st.inited = true
  · simp [beginCore, h1] at hs
  · by_cases h2 : ext.engineInitRet ≠ 0
    · simp [beginCore, h1, h2] at hs
    · by_cases h3 : ext.mmapRet ≠ 0
      · simp [beginCore, h1, h2, h3] at hs
      · rcases hfound : (if 0 ≤ config.model_id then
              (scanModels ext.modelCount).find? (fun m => m.type == config.model_id)
            else (scanModels ext.modelCount).head?) with _ | m
        · simp [beginCore, h1, h2, h3, hfound] at hs
        · by_cases h4 : ext.loadRet ≠ 0
          · simp [beginCore, h1, h2, h3, hfound, h4] at hs
          · by_cases h5 : ext.created = false
            · simp [beginCore, h1, h2, h3, hfound, h4, h5] at hs
            · simp [beginCore, h1, h2, h3, hfound, h4, h5]

/-- Every `ModelFactory::create` call `beginCore` makes passes the
previously stored `_config.model_id` (clamped to 0 when negative). -/
theorem beginCore_create_id (st : CoreState) (ext : BeginExt) (config : Config) :
    ∀ i, Event.create i ∈ (beginCore st ext config).events →
      i = if 0 ≤ st.config.model_id then st.config.model_id else 0 := by
  intro i hi
  by_cases h1 : st.inited = true
  · simp [beginCore, h1] at hi
  · by_cases h2 : ext.engineInitRet ≠ 0
    · simp [beginCore, h1, h2] at hi
    · by_cases h3 : ext.mmapRet ≠ 0
      · simp [beginCore, h1, h2, h3] at hi
      · rcases hfound : (if 0 ≤ config.model_id then
              (scanModels ext.modelCount).find? (fun m => m.type == config.model_id)
            else (scanModels ext.modelCount).head?) with _ | m
        · simp [beginCore, h1, h2, h3, hfound] at hi
        · by_cases h4 : ext.loadRet ≠ 0
          · simp [beginCore, h1, h2, h3, hfound, h4] at hi
          · by_cases h5 : ext.created = false
            · simp [beginCore, h1, h2, h3, hfound, h4, h5] at hi
              exact hi
            · simp [beginCore, h1, h2, h3, hfound, h4, h5] at hi
              rcases hic : config.invoke_config with _ | c <;> rw [hic] at hi <;>
                simpa using hi

/-! ### Claim C6 -/

/-- C6: during `invoke` with a non-null config, the model's THRESHOLD and
NMS options are set from it as the first two observable actions — hence
before the model is run; during `begin` with a config whose
`invoke_config` is non-null, both options are set from it right after the
`ModelFactory::create` call. -/
theorem model_options_set_before_run :
    (∀ (st : CoreState) (model : MaModel) (frame : Frame) (c : InvokeConfig) (ctx : Nat),
      validateMsg st frame = none →
      ∃ rest, (invoke st model frame (some c) ctx).events =
        Event.setOpt ModelOpt.THRESHOLD c.score_threshold ::
        Event.setOpt ModelOpt.NMS c.nms_threshold :: rest) ∧
    (∀ (st : CoreState) (ext : BeginExt) (config : Config) (c : InvokeConfig),
      config.invoke_config = some c →
      (beginCore st ext config).exp.success = true →
      ∃ i, (beginCore st ext config).events =
        [Event.create i, Event.setOpt ModelOpt.THRESHOLD c.score_threshold,
         Event.setOpt ModelOpt.NMS c.nms_threshold]) := by
  constructor
  · intro st model frame c ctx hv
    obtain ⟨img, himg⟩ :=
      frameToImg_isSome frame ((validateMsg_eq_none_iff st frame).mp hv).2.1
    rw [invoke_eq_invokeBody st model frame (some c) ctx img hv himg]
    rcases model with ⟨mtype, mrun, mpts, mcls, mbox, mkp, mperf⟩
    cases mtype <;> by_cases hr : mrun ≠ 0 <;>
      simp [invokeBody, branchPoints, branchClasses, branchBoxes, branchKeypoints,
        perfTail, hr]
  · intro st ext config c hc hs
    obtain ⟨-, hevts⟩ := beginCore_success_char st ext config hs
    exact ⟨_, by rw [hevts, hc]⟩

/-- Witness for C6: concrete instantiations of both conjuncts. -/
theorem model_options_set_before_run_witness :
    (validateMsg stW frameW = none ∧
      ∃ rest, (invoke stW modelCls frameW (some cfgK1) 0).events =
        Event.setOpt ModelOpt.THRESHOLD cfgK1.score_threshold ::
        Event.setOpt ModelOpt.NMS cfgK1.nms_threshold :: rest) ∧
    ({ cfg0 with invoke_config := some cfgK1 }.invoke_config = some cfgK1 ∧
      (beginCore stNot extW { cfg0 with invoke_config := some cfgK1 }).exp.success = true ∧
      ∃ i, (beginCore stNot extW { cfg0 with invoke_config := some cfgK1 }).events =
        [Event.create i, Event.setOpt ModelOpt.THRESHOLD cfgK1.score_threshold,
         Event.setOpt ModelOpt.NMS cfgK1.nms_threshold]) :=
  ⟨⟨by decide,
    model_options_set_before_run.1 stW modelCls frameW cfgK1 0 (by decide)⟩,
   ⟨by decide, by decide,
    model_options_set_before_run.2 stNot extW _ cfgK1 rfl (by decide)⟩⟩

/-! ### Claim C5 -/

/-- C5 as a predicate: on this invoke, the result-callback calls in the
trace are exactly the single expected call (with the extracted list and
the caller's context) when the branch's slot is registered and none
otherwise, and the perf-callback calls are exactly one call with the
model's preprocess/inference/postprocess times when that slot is
registered and none otherwise. -/
def CallbackClaim (st : CoreState) (model : MaModel) (frame : Frame)
    (cfg : Option InvokeConfig) (ctx : Nat) : Prop :=
  (invoke st model frame cfg ctx).exp.success = true ∧
  (invoke st model frame cfg ctx).events.filter isResultCbEvt =
    specResultEvts st model cfg ctx ∧
  (invoke st model frame cfg ctx).events.filter isPerfCbEvt =
    (if st.cbs.perfCb then
      [Event.cbPerf { preprocess := model.perf.preprocess, inference := model.perf.inference,
                      postprocess := model.perf.postprocess } ctx]
     else [])

/-- C5: the callback claim holds for every invoke that passes validation
and whose model run succeeds. -/
theorem invoke_callback_dispatch (st : CoreState) (model : MaModel) (frame : Frame)
    (cfg : Option InvokeConfig) (ctx : Nat)
    (hv : validateMsg st frame = none) (hrun : model.runRet = 0) :
    CallbackClaim st model frame cfg ctx := by
  obtain ⟨img, himg⟩ :=
    frameToImg_isSome frame ((validateMsg_eq_none_iff st frame).mp hv).2.1
  unfold CallbackClaim
  rw [invoke_eq_invokeBody st model frame cfg ctx img hv himg]
  cases htype : model.type <;> rcases cfg with _ | c <;>
    simp [invokeBody, branchPoints, branchClasses, branchBoxes, branchKeypoints, perfTail,
      specResultEvts, branchKind, effConfig, isResultCbEvt, isPerfCbEvt, hrun, htype,
      List.filter_append] <;>
    split_ifs <;> simp [isResultCbEvt, isPerfCbEvt]

/-- Witness for C5 at the concrete classifier invoke. -/
theorem invoke_callback_dispatch_witness :
    validateMsg stW frameW = none ∧ modelCls.runRet = 0 ∧
    CallbackClaim stW modelCls frameW (some cfgK1) 0 :=
  ⟨by decide, by decide,
   invoke_callback_dispatch stW modelCls frameW (some cfgK1) 0 (by decide) (by decide)⟩

/-! ### Claim C1 -/

/-- C1 as a predicate: the invoke succeeds; whichever typed branch the
model type selects, the stored list (also handed to the callback when
registered) is the image of the truncated engine results; when a config
with `top_k > 0` is in effect each of the four truncations keeps at most
`top_k` elements, every removed element scoring no higher than any
retained; with no config in effect, or `top_k <= 0`, all four truncations
forward every engine result unchanged. -/
def TopKClaim (st : CoreState) (model : MaModel) (frame : Frame)
    (cfg : Option InvokeConfig) (ctx : Nat) : Prop :=
  (invoke st model frame cfg ctx).exp.success = true ∧
  (model.type = MaModelType.PFLD →
    (invoke st model frame cfg ctx).state.points =
      (truncPoints (effConfig st cfg) model.pointResults).map pointOfMa ∧
    (st.cbs.pointsCb = true →
      Event.cbPoints ((truncPoints (effConfig st cfg) model.pointResults).map pointOfMa) ctx ∈
        (invoke st model frame cfg ctx).events)) ∧
  (model.type = MaModelType.IMCLS →
    (invoke st model frame cfg ctx).state.classes =
      (truncClasses (effConfig st cfg) model.classResults).map classOfMa ∧
    (st.cbs.classesCb = true →
      Event.cbClasses ((truncClasses (effConfig st cfg) model.classResults).map classOfMa) ctx ∈
        (invoke st model frame cfg ctx).events)) ∧
  (branchKind model.type = some ResultKind.boxesK →
    (invoke st model frame cfg ctx).state.boxes =
      (truncBoxes (effConfig st cfg) model.boxResults).map boxOfMa ∧
    (st.cbs.boxesCb = true →
      Event.cbBoxes ((truncBoxes (effConfig st cfg) model.boxResults).map boxOfMa) ctx ∈
        (invoke st model frame cfg ctx).events)) ∧
  (model.type = MaModelType.YOLOV8_POSE →
    (invoke st model frame cfg ctx).state.keypoints =
      (truncKeypoints (effConfig st cfg) model.keypointResults).map keypointsOfMa ∧
    (st.cbs.keypointsCb = true →
      Event.cbKeypoints
          ((truncKeypoints (effConfig st cfg) model.keypointResults).map keypointsOfMa) ctx ∈
        (invoke st model frame cfg ctx).events)) ∧
  (∀ c, effConfig st cfg = some c → 0 < c.top_k →
    topKBound MaPoint.score c.top_k model.pointResults
      (truncPoints (effConfig st cfg) model.pointResults) ∧
    topKBound MaClass.score c.top_k model.classResults
      (truncClasses (effConfig st cfg) model.classResults) ∧
    topKBound MaBbox.score c.top_k model.boxResults
      (truncBoxes (effConfig st cfg) model.boxResults) ∧
    topKBound (fun r => r.box.score) c.top_k model.keypointResults
      (truncKeypoints (effConfig st cfg) model.keypointResults)) ∧
  ((effConfig st cfg = none ∨ ∃ c, effConfig st cfg = some c ∧ c.top_k ≤ 0) →
    truncPoints (effConfig st cfg) model.pointResults = model.pointResults ∧
    truncClasses (effConfig st cfg) model.classResults = model.classResults ∧
    truncBoxes (effConfig st cfg) model.boxResults = model.boxResults ∧
    truncKeypoints (effConfig st cfg) model.keypointResults = model.keypointResults)

/-- C1: the top-k claim holds for every invoke that passes validation and
whose model run succeeds. -/
theorem invoke_topk_truncation (st : CoreState) (model : MaModel) (frame : Frame)
    (cfg : Option InvokeConfig) (ctx : Nat)
    (hv : validateMsg st frame = none) (hrun : model.runRet = 0) :
    TopKClaim st model frame cfg ctx := by
  obtain ⟨img, himg⟩ :=
    frameToImg_isSome frame ((validateMsg_eq_none_iff st frame).mp hv).2.1
  have htr1 : ∀ c, effConfig st cfg = some c → 0 < c.top_k →
      topKBound MaPoint.score c.top_k model.pointResults
        (truncPoints (effConfig st cfg) model.pointResults) ∧
      topKBound MaClass.score c.top_k model.classResults
        (truncClasses (effConfig st cfg) model.classResults) ∧
      topKBound MaBbox.score c.top_k model.boxResults
        (truncBoxes (effConfig st cfg) model.boxResults) ∧
      topKBound (fun r => r.box.score) c.top_k model.keypointResults
        (truncKeypoints (effConfig st cfg) model.keypointResults) := by
    intro c hc hk
    rw [hc]
    exact ⟨truncPoints_topK c hk _, truncClasses_topK c hk _, truncBoxes_topK c hk _,
      truncKeypoints_topK c hk _⟩
  have htr2 : (effConfig st cfg = none ∨ ∃ c, effConfig st cfg = some c ∧ c.top_k ≤ 0) →
      truncPoints (effConfig st cfg) model.pointResults = model.pointResults ∧
      truncClasses (effConfig st cfg) model.classResults = model.classResults ∧
      truncBoxes (effConfig st cfg) model.boxResults = model.boxResults ∧
      truncKeypoints (effConfig st cfg) model.keypointResults = model.keypointResults := by
    intro h
    obtain ⟨hp, hcl, hb, hkp⟩ := trunc_noop (effConfig st cfg) h
    exact ⟨hp _, hcl _, hb _, hkp _⟩
  unfold TopKClaim
  rw [invoke_eq_invokeBody st model frame cfg ctx img hv himg]
  refine ⟨?_, ?_, ?_, ?_, ?_, htr1, htr2⟩ <;>
    cases htype : model.type <;> rcases cfg with _ | c <;>
      simp [invokeBody, branchPoints, branchClasses, branchBoxes, branchKeypoints, perfTail,
        branchKind, effConfig, hrun, htype]

/-- Witness for C1 at the concrete classifier invoke with `top_k = 1`. -/
theorem invoke_topk_truncation_witness :
    validateMsg stW frameW = none ∧ modelCls.runRet = 0 ∧
    TopKClaim stW modelCls frameW (some cfgK1) 0 :=
  ⟨by decide, by decide,
   invoke_topk_truncation stW modelCls frameW (some cfgK1) 0 (by decide) (by decide)⟩

/-! ### Claim C4 -/

/-- C4 counterexample: with every callback slot registered and a model
whose type tag is `UNDEFINED`, a valid invoke succeeds, yet no typed
result-extraction branch is taken — the trace contains no result-callback
call — so the dispatch does not take one of the typed result-extraction
branches on every invocation. -/
theorem invoke_dispatch_five_branches_cex :
    stW.cbs.pointsCb = true ∧ stW.cbs.classesCb = true ∧ stW.cbs.boxesCb = true ∧
    stW.cbs.keypointsCb = true ∧ modelU.type = MaModelType.UNDEFINED ∧
    (invoke stW modelU frameW none 0).exp.success = true ∧
    (invoke stW modelU frameW none 0).events.countP isResultCbEvt = 0 := by decide

/-- C4 as amended, as a predicate: the dispatch takes at most one typed
result-extraction branch per invocation; the kind of any result callback
made equals the branch table's entry for the model type; the table sends
`PFLD` to points, `IMCLS` to classes, the five detector tags to boxes and
`YOLOV8_POSE` to keypoints — four branches with four distinct result kinds
— and every other tag (the `default` arm) to no extraction branch at
all. -/
def DispatchClaim (st : CoreState) (model : MaModel) (frame : Frame)
    (cfg : Option InvokeConfig) (ctx : Nat) : Prop :=
  ((invoke st model frame cfg ctx).events.countP isResultCbEvt ≤ 1) ∧
  (∀ e ∈ (invoke st model frame cfg ctx).events, isResultCbEvt e = true →
    resultKindOf e = branchKind model.type) ∧
  branchKind MaModelType.PFLD = some ResultKind.pointsK ∧
  branchKind MaModelType.IMCLS = some ResultKind.classesK ∧
  branchKind MaModelType.FOMO = some ResultKind.boxesK ∧
  branchKind MaModelType.YOLOV5 = some ResultKind.boxesK ∧
  branchKind MaModelType.YOLOV8 = some ResultKind.boxesK ∧
  branchKind MaModelType.NVIDIA_DET = some ResultKind.boxesK ∧
  branchKind MaModelType.YOLO_WORLD = some ResultKind.boxesK ∧
  branchKind MaModelType.YOLOV8_POSE = some ResultKind.keypointsK ∧
  branchKind MaModelType.UNDEFINED = none ∧
  (∀ n, branchKind (MaModelType.other n) = none)

set_option maxHeartbeats 2000000 in
/-- C4 (amended): the dispatch claim holds for every invoke. -/
theorem invoke_dispatch_four_branches (st : CoreState) (model : MaModel) (frame : Frame)
    (cfg : Option InvokeConfig) (ctx : Nat) : DispatchClaim st model frame cfg ctx := by
  unfold DispatchClaim
  refine ⟨?_, ?_, rfl, rfl, rfl, rfl, rfl, rfl, rfl, rfl, rfl, fun n => rfl⟩ <;>
    rcases hval : validateMsg st frame with _ | msg
  · obtain ⟨img, himg⟩ :=
      frameToImg_isSome frame ((validateMsg_eq_none_iff st frame).mp hval).2.1
    rw [invoke_eq_invokeBody st model frame cfg ctx img hval himg]
    cases htype : model.type <;> rcases cfg with _ | c <;>
      simp [invokeBody, branchPoints, branchClasses, branchBoxes, branchKeypoints, perfTail,
        isResultCbEvt, htype, List.countP_append, List.countP_cons] <;>
      split_ifs <;> simp [List.countP_cons, List.countP_nil, isResultCbEvt]
  · rw [invoke_of_validate_some st model frame cfg ctx msg hval]
    simp
  · obtain ⟨img, himg⟩ :=
      frameToImg_isSome frame ((validateMsg_eq_none_iff st frame).mp hval).2.1
    rw [invoke_eq_invokeBody st model frame cfg ctx img hval himg]
    cases htype : model.type <;> rcases cfg with _ | c <;>
      simp [invokeBody, branchPoints, branchClasses, branchBoxes, branchKeypoints, perfTail,
        isResultCbEvt, resultKindOf, branchKind, htype] <;>
      split_ifs <;> simp_all [isResultCbEvt, resultKindOf]
  · rw [invoke_of_validate_some st model frame cfg ctx msg hval]
    simp

/-- Witness for C4 (amended) at the concrete `UNDEFINED`-type invoke. -/
theorem invoke_dispatch_four_branches_witness : DispatchClaim stW modelU frameW none 0 :=
  invoke_dispatch_four_branches stW modelU frameW none 0

/-! ### Claim C2 -/

/-- C2 evaluated at the failing input: the classifier branch, fed the
engine results `{score = 2, target = 3}` and `{score = 9, target = 4}`,
stores and delivers `Class` values whose `target` FIELD holds the engine
SCORE and whose `score` field holds the engine target — the positional
aggregate init `{result.score, result.target}` against the member order
`target, score` transposes the two fields. -/
theorem invoke_classes_fields_transposed :
    modelCls.classResults = [{ score := 2, target := 3 }, { score := 9, target := 4 }] ∧
    (invoke stW modelCls frameW none 0).state.classes =
      [{ target := 2, score := 3 }, { target := 9, score := 4 }] ∧
    Event.cbClasses [{ target := 2, score := 3 }, { target := 9, score := 4 }] 0 ∈
      (invoke stW modelCls frameW none 0).events := by decide

/-! ### Claim C10 -/

/-- An invoke with a null config argument never changes the stored
`_config`. -/
theorem invoke_none_preserves_config (st : CoreState) (model : MaModel) (frame : Frame)
    (ctx : Nat) : (invoke st model frame none ctx).state.config = st.config := by
  rcases hval : validateMsg st frame with _ | msg
  · obtain ⟨img, himg⟩ :=
      frameToImg_isSome frame ((validateMsg_eq_none_iff st frame).mp hval).2.1
    rw [invoke_eq_invokeBody st model frame none ctx img hval himg]
    cases htype : model.type <;>
      simp [invokeBody, branchPoints, branchClasses, branchBoxes, branchKeypoints, perfTail,
        htype] <;>
      split_ifs <;> simp
  · rw [invoke_of_validate_some st model frame none ctx msg hval]

/-- An invoke that passes validation and carries a non-null config stores
that config pointer into `_config.invoke_config`. -/
theorem invoke_some_sets_config (st : CoreState) (model : MaModel) (frame : Frame)
    (c : InvokeConfig) (ctx : Nat) (hv : validateMsg st frame = none) :
    (invoke st model frame (some c) ctx).state.config.invoke_config = some c := by
  obtain ⟨img, himg⟩ :=
    frameToImg_isSome frame ((validateMsg_eq_none_iff st frame).mp hv).2.1
  rw [invoke_eq_invokeBody st model frame (some c) ctx img hv himg]
  cases htype : model.type <;>
    simp [invokeBody, branchPoints, branchClasses, branchBoxes, branchKeypoints, perfTail,
      htype] <;>
    split_ifs <;> simp

/-- C10 as a predicate: the passed config pointer is stored; an invoke with
a null config never changes the stored config, so the stored pointer stays
in effect across subsequent invokes without explicit configs — concretely,
a later classifier invoke without a config truncates with the earlier
passed config. -/
def ConfigPersistClaim (st : CoreState) (model : MaModel) (frame : Frame)
    (c : InvokeConfig) (ctx : Nat) : Prop :=
  ((invoke st model frame (some c) ctx).state.config.invoke_config = some c) ∧
  (∀ st2 model2 frame2 ctx2,
    (invoke st2 model2 frame2 none ctx2).state.config = st2.config) ∧
  (∀ model2 frame2 ctx2,
    (invoke (invoke st model frame (some c) ctx).state model2 frame2 none ctx2).state.config.invoke_config
      = some c) ∧
  (∀ model2 frame2 ctx2,
    validateMsg (invoke st model frame (some c) ctx).state frame2 = none →
    model2.runRet = 0 → model2.type = MaModelType.IMCLS →
    (invoke (invoke st model frame (some c) ctx).state model2 frame2 none ctx2).state.classes =
      (truncClasses (some c) model2.classResults).map classOfMa)

/-- C10: the persistence claim holds for every invoke passing validation. -/
theorem invoke_config_persistence (st : CoreState) (model : MaModel) (frame : Frame)
    (c : InvokeConfig) (ctx : Nat) (hv : validateMsg st frame = none) :
    ConfigPersistClaim st model frame c ctx := by
  have h1 := invoke_some_sets_config st model frame c ctx hv
  refine ⟨h1, fun st2 model2 frame2 ctx2 => invoke_none_preserves_config st2 model2 frame2 ctx2,
    fun model2 frame2 ctx2 => ?_, fun model2 frame2 ctx2 hv2 hrun2 htype2 => ?_⟩
  · rw [invoke_none_preserves_config]
    exact h1
  · obtain ⟨img2, himg2⟩ :=
      frameToImg_isSome frame2
        ((validateMsg_eq_none_iff (invoke st model frame (some c) ctx).state frame2).mp hv2).2.1
    rw [invoke_eq_invokeBody _ model2 frame2 none ctx2 img2 hv2 himg2]
    simp [invokeBody, branchClasses, perfTail, htype2, hrun2, h1]

/-- Witness for C10 at the concrete classifier invoke. -/
theorem invoke_config_persistence_witness :
    validateMsg stW frameW = none ∧ ConfigPersistClaim stW modelCls frameW cfgK1 0 :=
  ⟨by decide, invoke_config_persistence stW modelCls frameW cfgK1 0 (by decide)⟩

/-! ### Claim C8 -/

/-- C8 counterexample: starting from an uninitialized core whose stored
`model_id` is 7, `begin` with a config selecting `model_id = 0` (the one
id the line-242 lookup can find, every scanned entry being typed
`MA_MODEL_TYPE_UNDEFINED`) succeeds but calls `ModelFactory::create` with
the stored id 7, stores 0, and marks the core initialized — whereupon a
later `begin` fails with "Already initialized" and performs NO `create`
call at all, so the argument's `model_id` does not take effect on model
creation in a later call either. -/
theorem begin_model_id_later_call_cex :
    st7.config.model_id = 7 ∧ cfg0.model_id = 0 ∧
    (beginCore st7 extW cfg0).exp.success = true ∧
    (beginCore st7 extW cfg0).events = [Event.create 7] ∧
    (beginCore st7 extW cfg0).state.config.model_id = 0 ∧
    (beginCore (beginCore st7 extW cfg0).state extW cfg0).exp.success = false ∧
    (beginCore (beginCore st7 extW cfg0).state extW cfg0).events.countP isCreateEvt
      = 0 := by decide

/-- C8 as amended, as a predicate: every `ModelFactory::create` call of
`begin` passes the previously stored `_config.model_id` (clamped to 0 when
negative), never the argument's; the argument's configuration is stored —
and the core marked initialized — only on success; and after a successful
`begin`, any later `begin` fails with "Already initialized" without any
`create` call, so the stored id never reaches model creation through this
instance. -/
def BeginStoredIdClaim (st : CoreState) (ext : BeginExt) (config : Config) : Prop :=
  (∀ i, Event.create i ∈ (beginCore st ext config).events →
    i = if 0 ≤ st.config.model_id then st.config.model_id else 0) ∧
  ((beginCore st ext config).exp.success = true →
    (beginCore st ext config).state.config = config ∧
    (beginCore st ext config).state.inited = true) ∧
  ((beginCore st ext config).exp.success = true →
    ∀ ext2 config2,
      (beginCore (beginCore st ext config).state ext2 config2).exp =
        { success := false, message := "Already initialized" } ∧
      (beginCore (beginCore st ext config).state ext2 config2).events = []) ∧
  ((beginCore st ext config).exp.success = false →
    (beginCore st ext config).state = st)

/-- C8 (amended): the stored-model-id claim holds for every `begin`. -/
theorem begin_uses_stored_model_id (st : CoreState) (ext : BeginExt) (config : Config) :
    BeginStoredIdClaim st ext config := by
  refine ⟨beginCore_create_id st ext config, fun hs => ?_, fun hs ext2 config2 => ?_,
    fun hf => ?_⟩
  · obtain ⟨hstate, -⟩ := beginCore_success_char st ext config hs
    rw [hstate]
    exact ⟨rfl, rfl⟩
  · obtain ⟨hstate, -⟩ := beginCore_success_char st ext config hs
    rw [hstate]
    constructor <;> simp [beginCore]
  · by_cases h1 : st.inited = true
    · simp [beginCore, h1]
    · by_cases h2 : ext.engineInitRet ≠ 0
      · simp [beginCore, h1, h2]
      · by_cases h3 : ext.mmapRet ≠ 0
        · simp [beginCore, h1, h2, h3]
        · rcases hfound : (if 0 ≤ config.model_id then
                (scanModels ext.modelCount).find? (fun m => m.type == config.model_id)
              else (scanModels ext.modelCount).head?) with _ | m
          · simp [beginCore, h1, h2, h3, hfound]
          · by_cases h4 : ext.loadRet ≠ 0
            · simp [beginCore, h1, h2, h3, hfound, h4]
            · by_cases h5 : ext.created = false
              · simp [beginCore, h1, h2, h3, hfound, h4, h5]
              · simp [beginCore, h1, h2, h3, hfound, h4, h5] at hf

/-- Witness for C8 (amended) at the concrete `begin` pair. -/
theorem begin_uses_stored_model_id_witness : BeginStoredIdClaim st7 extW cfg0 :=
  begin_uses_stored_model_id st7 extW cfg0

end SSCMA
